import Mathlib

/-!
Verification of the core logic of the `news-channel-1` weather dashboard
(`src/app.py`): local-time arithmetic, current-hour row selection,
compass-direction classification, wind-arrow rendering math, geocode
decoding and hourly-series decoding, shallowly embedded in Lean.

Timestamps are modelled as integer seconds since the Unix epoch (UTC).
Python floats for degrees and weather variables are modelled as rationals;
the trigonometry of the wind arrow is modelled over the reals.
-/

namespace WeatherApp

/-- Calendar hour (0..23) of an epoch-second instant, as computed by
pandas `Series.dt.hour` on the UTC `date` column (app.py line 322). -/
def hourOf (t : ℤ) : ℤ := (t / 3600) % 24

/-- Calendar date (days since the epoch) of an epoch-second instant, as
computed by pandas `Series.dt.date` (app.py line 323). -/
def dateOf (t : ℤ) : ℤ := t / 86400

/-- One row of the hourly dataframe built in `update_output`
(app.py lines 303-317). -/
structure HourlyRecord where
  timestamp : ℤ
  temperature_2m : ℚ
  relative_humidity_2m : ℚ
  precipitation_probability : ℚ
  wind_speed_10m : ℚ
  wind_direction_10m : ℚ
deriving DecidableEq

/-- The boolean row mask of app.py lines 321-324: the row's `date` column
has the same hour and the same calendar date as `now` (both in UTC). -/
def rowMatchB (t now : ℤ) : Bool :=
  (hourOf t == hourOf now) && (dateOf t == dateOf now)

/-- `hourly_dataframe.loc[mask]` of app.py lines 321-324: the sub-series of
records whose UTC hour and date equal those of `now`
(`now = dt.datetime.now(dt.timezone.utc)`, line 234). -/
def selectCurrent (s : List HourlyRecord) (now : ℤ) : List HourlyRecord :=
  s.filter (fun r => rowMatchB r.timestamp now)

/-- The spec's Row Selector predicate: the record's timestamp, shifted into
location-local time by the series' UTC offset, has the same calendar date
and hour as the (equally shifted) local now. -/
abbrev localMatches (t now off : ℤ) : Prop :=
  dateOf (t + off) = dateOf (now + off) ∧ hourOf (t + off) = hourOf (now + off)

/-- Lines 41-46 of app.py (`get_local_time`): the parsed naive provider
timestamp minus the provider's `utc_offset_seconds`. -/
def get_local_time (providerTime off : ℤ) : ℤ := providerTime - off

/-- With `timezone=auto` the provider's `current_weather.time` is the naive
location-local current time: the current UTC instant plus the UTC offset. -/
def providerLocalTime (utcNow off : ℤ) : ℤ := utcNow + off

/-- The original pipeline's `localNow`: `get_local_time` applied to the
provider-reported naive local timestamp (app.py lines 38-48, 366). -/
def origLocalNow (utcNow off : ℤ) : ℤ :=
  get_local_time (providerLocalTime utcNow off) off

/-- Modelled from the spec (§4.3): the reimplementation's `localNow`,
directly adding `utc_offset_seconds` to the current UTC instant. -/
def specLocalNow (utcNow off : ℤ) : ℤ := utcNow + off

/-- A record with the given timestamp and zeroed weather fields. -/
def mkRec (t : ℤ) : HourlyRecord :=
  { timestamp := t, temperature_2m := 0, relative_humidity_2m := 0,
    precipitation_probability := 0, wind_speed_10m := 0, wind_direction_10m := 0 }

/-- A one-day hourly series whose records cover location-local hours
00:00..23:00 of epoch day 1 for a UTC offset of +2 hours (7200 s):
UTC timestamps 79200, 82800, ..., 162000. -/
def day1Series : List HourlyRecord :=
  (List.range 24).map (fun k => mkRec (79200 + 3600 * (k : ℤ)))

/-- The record of `day1Series` whose location-local hour is 14:00. -/
def rec14 : HourlyRecord := mkRec 129600

/-- The UTC instant whose +2 h location-local time is day-1 14:37:00. -/
def day1Now : ℤ := 131820

/-- A second record in the 14:00 UTC-hour slot, differing from `mkRec 129600`
only in its temperature, to exercise the ambiguous-match case. -/
def dupRecB : HourlyRecord :=
  { timestamp := 129600, temperature_2m := 1, relative_humidity_2m := 0,
    precipitation_probability := 0, wind_speed_10m := 0, wind_direction_10m := 0 }

/-- A series holding two records with the same timestamp hour. -/
def dupSeries : List HourlyRecord := [mkRec 129600, dupRecB]

/-- Python's `%` on rationals: `x % y = x - y * floor(x / y)` (the result
has the sign of the divisor), modelling `degrees % 360` on app.py line 58. -/
def pymod (x y : ℚ) : ℚ := x - y * (⌊x / y⌋ : ℚ)

/-- The `if`/`elif` chain of app.py lines 60-77, applied to the already
normalized degree value. -/
def normalizedDirection (d : ℚ) : String :=
  if (0 ≤ d ∧ d < 22.5) ∨ (337.5 ≤ d ∧ d ≤ 360) then "North"
  else if 22.5 ≤ d ∧ d < 67.5 then "Northeast"
  else if 67.5 ≤ d ∧ d < 112.5 then "East"
  else if 112.5 ≤ d ∧ d < 157.5 then "Southeast"
  else if 157.5 ≤ d ∧ d < 202.5 then "South"
  else if 202.5 ≤ d ∧ d < 247.5 then "Southwest"
  else if 247.5 ≤ d ∧ d < 292.5 then "West"
  else if 292.5 ≤ d ∧ d < 337.5 then "Northwest"
  else "Unknown Direction"

/-- `degrees_to_direction` of app.py lines 53-77: reject inputs outside
[0, 360], normalize by `% 360`, then classify into a compass sector. -/
def degrees_to_direction (degrees : ℚ) : String :=
  if degrees < 0 ∨ degrees > 360 then
    "Invalid degree input. Degrees must be between 0 and 360."
  else
    normalizedDirection (pymod degrees 360)

/-- The eight compass labels of the spec's Direction Classifier. -/
def compassLabels : List String :=
  ["North", "Northeast", "East", "Southeast", "South", "Southwest", "West", "Northwest"]

/-- One entry of the geocoding service's `results` array (app.py lines
229-243). -/
structure GeoResult where
  name : String
  admin1 : String
  country : String
  latitude : ℚ
  longitude : ℚ
deriving DecidableEq

/-- The geocoding response body: `{results: [...]}`. -/
structure GeoResponse where
  results : List GeoResult
deriving DecidableEq

/-- The spec's Location record (§3), as far as the geocode response
populates it. -/
structure Location where
  name : String
  admin_region : String
  country : String
  latitude : ℚ
  longitude : ℚ
deriving DecidableEq

/-- The geocode decoding of app.py lines 229-243: every field is read from
`res["results"][0]`, with no emptiness check; `none` models the uncaught
index error raised when `results` is empty. -/
def resolveGeocode (res : GeoResponse) : Option Location :=
  res.results.head?.map (fun r =>
    { name := r.name, admin_region := r.admin1, country := r.country,
      latitude := r.latitude, longitude := r.longitude })

/-- A populated single-result geocode entry. -/
def columbusResult : GeoResult :=
  { name := "Columbus", admin1 := "Ohio", country := "United States",
    latitude := 39.96118, longitude := -82.99879 }

/-- The Location the code derives from `columbusResult`. -/
def columbusLocation : Location :=
  { name := "Columbus", admin_region := "Ohio", country := "United States",
    latitude := 39.96118, longitude := -82.99879 }

/-- The time-axis metadata and columnar variable arrays of the hourly
forecast response consumed in app.py lines 296-317. -/
structure HourlyResponse where
  time : ℤ
  timeEnd : ℤ
  interval : ℤ
  temperature_2m : List ℚ
  relative_humidity_2m : List ℚ
  precipitation_probability : List ℚ
  wind_speed_10m : List ℚ
  wind_direction_10m : List ℚ
deriving DecidableEq

/-- Number of points of a left-inclusive `pd.date_range(start, end, freq)`:
the count of k ≥ 0 with start + k·step < stop. -/
def numSteps (start stop step : ℤ) : ℕ := (((stop - start) + step - 1) / step).toNat

/-- The `pd.date_range(start=time, end=time_end, freq=interval,
inclusive="left")` axis of app.py lines 304-309, in epoch seconds. -/
def dateRange (start stop step : ℤ) : List ℤ :=
  (List.range (numSteps start stop step)).map (fun k : ℕ => start + step * (k : ℤ))

/-- The dataframe construction of app.py lines 303-317: the shared time
axis zipped positionally with the five variable arrays. `none` models the
`ValueError` pandas raises when a column length does not match, or a
non-positive `freq`. -/
def decodeHourly (h : HourlyResponse) : Option (List HourlyRecord) :=
  if 0 < h.interval ∧
      h.temperature_2m.length = (dateRange h.time h.timeEnd h.interval).length ∧
      h.relative_humidity_2m.length = (dateRange h.time h.timeEnd h.interval).length ∧
      h.precipitation_probability.length = (dateRange h.time h.timeEnd h.interval).length ∧
      h.wind_speed_10m.length = (dateRange h.time h.timeEnd h.interval).length ∧
      h.wind_direction_10m.length = (dateRange h.time h.timeEnd h.interval).length then
    some ((List.range (dateRange h.time h.timeEnd h.interval).length).map (fun i =>
      { timestamp := (dateRange h.time h.timeEnd h.interval).getD i 0,
        temperature_2m := h.temperature_2m.getD i 0,
        relative_humidity_2m := h.relative_humidity_2m.getD i 0,
        precipitation_probability := h.precipitation_probability.getD i 0,
        wind_speed_10m := h.wind_speed_10m.getD i 0,
        wind_direction_10m := h.wind_direction_10m.getD i 0 }))
  else none

/-- A three-hour fixture response with a well-formed time axis. -/
def fixtureResponse : HourlyResponse :=
  { time := 0, timeEnd := 10800, interval := 3600,
    temperature_2m := [50, 51, 52],
    relative_humidity_2m := [40, 41, 42],
    precipitation_probability := [10, 11, 12],
    wind_speed_10m := [5, 6, 7],
    wind_direction_10m := [95, 180, 270] }

/-- The records `decodeHourly` produces from `fixtureResponse`. -/
def fixtureRecords : List HourlyRecord :=
  [{ timestamp := 0, temperature_2m := 50, relative_humidity_2m := 40,
     precipitation_probability := 10, wind_speed_10m := 5, wind_direction_10m := 95 },
   { timestamp := 3600, temperature_2m := 51, relative_humidity_2m := 41,
     precipitation_probability := 11, wind_speed_10m := 6, wind_direction_10m := 180 },
   { timestamp := 7200, temperature_2m := 52, relative_humidity_2m := 42,
     precipitation_probability := 12, wind_speed_10m := 7, wind_direction_10m := 270 }]

/-- `np.deg2rad` (app.py line 82): degrees times π/180. -/
noncomputable def deg2rad (degrees : ℝ) : ℝ := degrees * (Real.pi / 180)

/-- The arrow components of app.py lines 82-86:
`dx = length·sin(θ)`, `dy = length·cos(θ)` with θ the bearing in radians. -/
noncomputable def toVector (degrees length : ℝ) : ℝ × ℝ :=
  (length * Real.sin (deg2rad degrees), length * Real.cos (deg2rad degrees))

/-- The display-relevant content of the figure built by
`wind_direction_arrow`: the arrow endpoint and the title text. -/
structure ArrowFigure where
  dx : ℝ
  dy : ℝ
  title : String

/-- `wind_direction_arrow` of app.py lines 80-131: the annotation endpoint
`(ax, ay) = (dx, dy)` and the layout title, both computed from the one
`direction_degrees` argument. -/
noncomputable def wind_direction_arrow (direction_degrees : ℚ) (length : ℝ) : ArrowFigure :=
  { dx := length * Real.sin (deg2rad (direction_degrees : ℝ)),
    dy := length * Real.cos (deg2rad (direction_degrees : ℝ)),
    title := "Wind Direction: " ++ degrees_to_direction direction_degrees }

/- Auxiliary arithmetic about the hour/date comparison. -/

lemma hour_date_iff (t n : ℤ) :
    (hourOf t = hourOf n ∧ dateOf t = dateOf n) ↔ t / 3600 = n / 3600 := by
  unfold hourOf dateOf
  omega

lemma shift_ediv (t off : ℤ) (h : off % 3600 = 0) :
    (t + off) / 3600 = t / 3600 + off / 3600 := by
  omega

lemma localMatches_iff_utcMatches (t now off : ℤ) (h : off % 3600 = 0) :
    localMatches t now off ↔ (hourOf t = hourOf now ∧ dateOf t = dateOf now) := by
  rw [hour_date_iff, show localMatches t now off ↔
      (hourOf (t + off) = hourOf (now + off) ∧ dateOf (t + off) = dateOf (now + off))
    from and_comm, hour_date_iff, shift_ediv t off h, shift_ediv now off h]
  omega

lemma mem_selectCurrent_iff (s : List HourlyRecord) (now : ℤ) (r : HourlyRecord) :
    r ∈ selectCurrent s now ↔
      r ∈ s ∧ (hourOf r.timestamp = hourOf now ∧ dateOf r.timestamp = dateOf now) := by
  simp [selectCurrent, rowMatchB, List.mem_filter, Bool.and_eq_true, beq_iff_eq]

lemma pymod_eq_self (d : ℚ) (h0 : 0 ≤ d) (h1 : d < 360) : pymod d 360 = d := by
  unfold pymod
  have hf : ⌊d / 360⌋ = 0 := by
    rw [Int.floor_eq_zero_iff]
    exact Set.mem_Ico.mpr ⟨by positivity, (div_lt_one (by norm_num)).mpr h1⟩
  rw [hf]
  push_cast
  ring

/-- C1 (amended): provided the series' UTC offset is a whole number of
hours, the rows selected by app.py lines 321-324 are exactly those whose
timestamp, shifted into location-local time by the offset, has the same
calendar date and hour as the shifted local now; and on a series covering
local hours 00:00..23:00 with local now 14:37, exactly the 14:00 record
is selected. -/
theorem selectCurrent_local_hour_match :
    (∀ (s : List HourlyRecord) (now off : ℤ), off % 3600 = 0 →
      ∀ r : HourlyRecord,
        (r ∈ selectCurrent s now ↔ r ∈ s ∧ localMatches r.timestamp now off)) ∧
    selectCurrent day1Series day1Now = [rec14] := by
  constructor
  · intro s now off hoff r
    rw [mem_selectCurrent_iff, ← localMatches_iff_utcMatches r.timestamp now off hoff]
  · decide

/-- Witness for C1 at the +2 h offset and the day-1 14:37 local now. -/
theorem selectCurrent_local_hour_match_witness :
    ((7200:ℤ) % 3600 = 0) ∧
    (rec14 ∈ selectCurrent day1Series day1Now ↔
      rec14 ∈ day1Series ∧ localMatches rec14.timestamp day1Now 7200) :=
  ⟨by decide, selectCurrent_local_hour_match.1 day1Series day1Now 7200 (by decide) rec14⟩

/-- C1 counterexample: with a fractional-hour offset (+1800 s), the code
(which compares hour and date in UTC) selects the 01:00 UTC record for
`now` = 5500 s, although that record's location-local timestamp does not
share the calendar date and hour of the location-local now. -/
theorem selectCurrent_fractional_offset_counterexample :
    (mkRec 3600) ∈ selectCurrent [mkRec 3600] 5500 ∧
    ¬ localMatches 3600 5500 1800 := by decide

/-- C2: the row selection raises no `NoMatchError`: when `now` lies outside
the series (here: two days later), the selected frame is empty and
`.values[0]` (modelled by `head?`) has no value to return — an uncaught
index error; when two records share the matching hour, the code silently
uses the first, surfacing no ambiguity (app.py lines 321-363). -/
theorem selectCurrent_no_match_behavior :
    selectCurrent day1Series 300000 = [] ∧
    (selectCurrent day1Series 300000).head? = none ∧
    (selectCurrent dupSeries day1Now).length = 2 ∧
    (selectCurrent dupSeries day1Now).head? = some (mkRec 129600) := by decide

/-- C3 counterexample: at UTC instant 0 with offset 3600 s, the original
computation (parse the provider's naive local timestamp, subtract the
offset, app.py line 46) yields 0, while directly adding the offset to the
UTC instant yields 3600 — the two definitions of localNow differ. -/
theorem localNow_equivalence_counterexample :
    origLocalNow 0 3600 ≠ specLocalNow 0 3600 := by decide

/-- C3 (amended): the original computation recovers the current UTC instant
(the parsed provider-local timestamp minus the offset), so it differs from
the spec's `utcNow + utc_offset_seconds` by exactly the offset; the two
definitions of localNow agree exactly when the offset is zero. -/
theorem localNow_orig_recovers_utc :
    ∀ utcNow off : ℤ, origLocalNow utcNow off = utcNow ∧
      specLocalNow utcNow off = utcNow + off ∧
      (origLocalNow utcNow off = specLocalNow utcNow off ↔ off = 0) := by
  intro utcNow off
  unfold origLocalNow specLocalNow get_local_time providerLocalTime
  omega

/-- C4: the classifier's boundary values match the spec — 0, 22.4 and 337.5
map to North, 22.5 to Northeast, 337.4 to Northwest, and 360 is normalized
to 0 by the `% 360` step, hence also North (app.py lines 53-77). -/
theorem degrees_to_direction_boundaries :
    degrees_to_direction 0 = "North" ∧
    degrees_to_direction 22.4 = "North" ∧
    degrees_to_direction 22.5 = "Northeast" ∧
    degrees_to_direction 337.5 = "North" ∧
    degrees_to_direction 337.4 = "Northwest" ∧
    degrees_to_direction 360 = "North" ∧
    degrees_to_direction 360 = degrees_to_direction 0 := by
  refine ⟨?_, ?_, ?_, ?_, ?_, ?_, ?_⟩ <;>
    norm_num [degrees_to_direction, normalizedDirection, pymod]

/-- C5: on the valid domain [0, 360) the classifier always returns one of
the eight compass labels; the `"Unknown Direction"` fallthrough of app.py
line 77 is unreachable there. -/
theorem degrees_to_direction_total (d : ℚ) (h0 : 0 ≤ d) (h1 : d < 360) :
    degrees_to_direction d ∈ compassLabels := by
  unfold degrees_to_direction
  rw [if_neg (by push_neg; exact ⟨h0, by linarith⟩), pymod_eq_self d h0 h1]
  unfold normalizedDirection
  split_ifs with hA hB hC hD hE hF hG hH
  · decide
  · decide
  · decide
  · decide
  · decide
  · decide
  · decide
  · decide
  · exfalso
    push_neg at hA hB hC hD hE hF hG hH
    have k1 : (22.5:ℚ) ≤ d := hA.1 h0
    have k2 : (67.5:ℚ) ≤ d := hB k1
    have k3 : (112.5:ℚ) ≤ d := hC k2
    have k4 : (157.5:ℚ) ≤ d := hD k3
    have k5 : (202.5:ℚ) ≤ d := hE k4
    have k6 : (247.5:ℚ) ≤ d := hF k5
    have k7 : (292.5:ℚ) ≤ d := hG k6
    have k8 : (337.5:ℚ) ≤ d := hH k7
    have := hA.2 k8
    linarith

/-- Witness for C5 at the in-range bearing 100°. -/
theorem degrees_to_direction_total_witness :
    (0:ℚ) ≤ 100 ∧ (100:ℚ) < 360 ∧ degrees_to_direction 100 ∈ compassLabels :=
  ⟨by decide, by decide, degrees_to_direction_total 100 (by decide) (by decide)⟩

/-- C6: every input outside [0, 360] is rejected with the invalid-degree
error before the `% 360` normalization runs, and the result is never one of
the eight compass labels (app.py lines 54-55). -/
theorem degrees_to_direction_invalid (d : ℚ) (h : d < 0 ∨ d > 360) :
    degrees_to_direction d = "Invalid degree input. Degrees must be between 0 and 360." ∧
    degrees_to_direction d ∉ compassLabels := by
  unfold degrees_to_direction
  rw [if_pos h]
  exact ⟨rfl, by decide⟩

/-- Witness for C6 at the out-of-range bearings -1° and 361°. -/
theorem degrees_to_direction_invalid_witness :
    ((-1:ℚ) < 0 ∨ (-1:ℚ) > 360) ∧ ((361:ℚ) < 0 ∨ (361:ℚ) > 360) ∧
    degrees_to_direction (-1) = "Invalid degree input. Degrees must be between 0 and 360." ∧
    degrees_to_direction 361 = "Invalid degree input. Degrees must be between 0 and 360." :=
  ⟨by decide, by decide, (degrees_to_direction_invalid (-1) (by decide)).1,
   (degrees_to_direction_invalid 361 (by decide)).1⟩

/-- C7: on an empty `results` array the geocode decoding of app.py lines
229-232 dereferences a missing element — there is no value and no
`NotFoundError`, only an uncaught index error (modelled by `none`); on a
populated response it returns the fully populated Location. -/
theorem resolveGeocode_empty_results :
    resolveGeocode { results := [] } = none ∧
    resolveGeocode { results := [columbusResult] } = some columbusLocation :=
  ⟨rfl, rfl⟩

/-- Success form of `decodeHourly`. -/
lemma decodeHourly_some (h : HourlyResponse) (recs : List HourlyRecord)
    (hdec : decodeHourly h = some recs) :
    0 < h.interval ∧
    h.temperature_2m.length = (dateRange h.time h.timeEnd h.interval).length ∧
    h.relative_humidity_2m.length = (dateRange h.time h.timeEnd h.interval).length ∧
    h.precipitation_probability.length = (dateRange h.time h.timeEnd h.interval).length ∧
    h.wind_speed_10m.length = (dateRange h.time h.timeEnd h.interval).length ∧
    h.wind_direction_10m.length = (dateRange h.time h.timeEnd h.interval).length ∧
    recs = (List.range (dateRange h.time h.timeEnd h.interval).length).map (fun i =>
      { timestamp := (dateRange h.time h.timeEnd h.interval).getD i 0,
        temperature_2m := h.temperature_2m.getD i 0,
        relative_humidity_2m := h.relative_humidity_2m.getD i 0,
        precipitation_probability := h.precipitation_probability.getD i 0,
        wind_speed_10m := h.wind_speed_10m.getD i 0,
        wind_direction_10m := h.wind_direction_10m.getD i 0 }) := by
  unfold decodeHourly at hdec
  split_ifs at hdec with hcond
  exact ⟨hcond.1, hcond.2.1, hcond.2.2.1, hcond.2.2.2.1, hcond.2.2.2.2.1,
    hcond.2.2.2.2.2, (Option.some.inj hdec).symm⟩

lemma dateRange_length (start stop step : ℤ) :
    (dateRange start stop step).length = numSteps start stop step := by
  unfold dateRange
  rw [List.length_map, List.length_range]

lemma dateRange_getD (start stop step : ℤ) (i : ℕ) (hi : i < numSteps start stop step) :
    (dateRange start stop step).getD i 0 = start + step * (i : ℤ) := by
  unfold dateRange
  rw [List.getD_eq_getElem _ _ (by rw [List.length_map, List.length_range]; exact hi)]
  rw [List.getElem_map, List.getElem_range]

/-- C8: a successfully decoded hourly response yields exactly as many
records as each variable array has entries, with timestamps advancing by
exactly `interval` seconds, hence strictly increasing and unique; the
series is non-empty whenever the time window is. -/
theorem decodeHourly_series_shape (h : HourlyResponse) (recs : List HourlyRecord)
    (hdec : decodeHourly h = some recs) :
    recs.length = h.temperature_2m.length ∧
    recs.length = h.relative_humidity_2m.length ∧
    recs.length = h.precipitation_probability.length ∧
    recs.length = h.wind_speed_10m.length ∧
    recs.length = h.wind_direction_10m.length ∧
    List.Chain' (fun a b => b.timestamp = a.timestamp + h.interval) recs ∧
    (recs.map (fun r => r.timestamp)).Pairwise (· < ·) ∧
    (h.time < h.timeEnd → recs ≠ []) := by
  obtain ⟨hiv, hl1, hl2, hl3, hl4, hl5, hrecs⟩ := decodeHourly_some h recs hdec
  set n := (dateRange h.time h.timeEnd h.interval).length with hn
  have hlen : recs.length = n := by rw [hrecs]; simp
  have hts : recs.map (fun r => r.timestamp) =
      (List.range n).map (fun i : ℕ => h.time + h.interval * (i : ℤ)) := by
    rw [hrecs, List.map_map]
    apply List.map_congr_left
    intro i hi
    rw [List.mem_range] at hi
    have := dateRange_getD h.time h.timeEnd h.interval i (by rwa [← dateRange_length])
    simpa [Function.comp] using this
  refine ⟨by rw [hlen, hl1], by rw [hlen, hl2], by rw [hlen, hl3],
    by rw [hlen, hl4], by rw [hlen, hl5], ?_, ?_, ?_⟩
  · rw [hrecs]
    rw [List.chain'_map]
    rw [List.chain'_iff_get]
    intro i hi
    simp only [List.length_range] at hi
    rw [List.get_range, List.get_range]
    have h1 : i < numSteps h.time h.timeEnd h.interval := by
      rw [← dateRange_length]; omega
    have h2 : i + 1 < numSteps h.time h.timeEnd h.interval := by
      rw [← dateRange_length]; omega
    rw [dateRange_getD h.time h.timeEnd h.interval i h1,
        dateRange_getD h.time h.timeEnd h.interval (i + 1) h2]
    push_cast
    ring
  · rw [hts]
    refine List.Pairwise.map _ (fun a b hab => ?_) (List.pairwise_lt_range n)
    have hab' : (a : ℤ) < (b : ℤ) := by exact_mod_cast hab
    have := mul_lt_mul_of_pos_left hab' hiv
    linarith
  · intro hw
    have hpos : 0 < numSteps h.time h.timeEnd h.interval := by
      unfold numSteps
      have h1 : (1 : ℤ) ≤ ((h.timeEnd - h.time) + h.interval - 1) / h.interval := by
        rw [Int.le_ediv_iff_mul_le hiv]
        omega
      omega
    have : recs.length ≠ 0 := by
      rw [hlen, hn, dateRange_length]
      omega
    exact fun hnil => this (by simp [hnil])

/-- Witness for C8 at the three-hour fixture response. -/
theorem decodeHourly_series_shape_witness :
    decodeHourly fixtureResponse = some fixtureRecords ∧
    (fixtureRecords.length = fixtureResponse.temperature_2m.length ∧
     fixtureRecords.length = fixtureResponse.relative_humidity_2m.length ∧
     fixtureRecords.length = fixtureResponse.precipitation_probability.length ∧
     fixtureRecords.length = fixtureResponse.wind_speed_10m.length ∧
     fixtureRecords.length = fixtureResponse.wind_direction_10m.length ∧
     List.Chain' (fun a b => b.timestamp = a.timestamp + fixtureResponse.interval)
       fixtureRecords ∧
     (fixtureRecords.map (fun r => r.timestamp)).Pairwise (· < ·) ∧
     (fixtureResponse.time < fixtureResponse.timeEnd → fixtureRecords ≠ [])) :=
  ⟨by decide, decodeHourly_series_shape fixtureResponse fixtureRecords (by decide)⟩

/-- C9: the arrow vector follows the compass convention — componentwise it
is `(length·sin θ, length·cos θ)` for θ the bearing in radians, and the
cardinal bearings 0°, 90°, 180° map to (0,1), (1,0), (0,-1). -/
theorem toVector_compass_convention :
    (∀ degrees length : ℝ, toVector degrees length =
      (length * Real.sin (degrees * (Real.pi / 180)),
       length * Real.cos (degrees * (Real.pi / 180)))) ∧
    toVector 0 1 = (0, 1) ∧ toVector 90 1 = (1, 0) ∧ toVector 180 1 = (0, -1) := by
  refine ⟨fun d l => rfl, ?_, ?_, ?_⟩
  · unfold toVector deg2rad
    norm_num
  · unfold toVector deg2rad
    rw [show (90:ℝ) * (Real.pi / 180) = Real.pi / 2 by ring,
        Real.sin_pi_div_two, Real.cos_pi_div_two]
    norm_num
  · unfold toVector deg2rad
    rw [show (180:ℝ) * (Real.pi / 180) = Real.pi by ring,
        Real.sin_pi, Real.cos_pi]
    norm_num

/-- C10: the figure's title is the literal prefix followed by
`degrees_to_direction` of the same degrees value from which the arrow
endpoint `(dx, dy)` is computed, so label and arrow agree. -/
theorem wind_arrow_title_consistent :
    ∀ (d : ℚ) (length : ℝ),
      (wind_direction_arrow d length).title = "Wind Direction: " ++ degrees_to_direction d ∧
      ((wind_direction_arrow d length).dx, (wind_direction_arrow d length).dy) =
        toVector (d : ℝ) length :=
  fun d length => ⟨rfl, rfl⟩

end WeatherApp
